import Mathlib

/-!
Verification development for a client-side screen recording and video
editing application. The definitions below are shallow embeddings of the
recording session state machine, the duration timer, the webcam overlay
compositor geometry, the audio graph builder, the trim window mutations,
and the export pipeline, each translated from the corresponding source
functions. Times are modelled in whole milliseconds (`Nat`); fractional
quantities (seconds, gains, canvas coordinates) are modelled as `ℚ`.
-/

/-- Audio source selection, from the `AudioSource` union type. -/
inductive AudioSource
  | mic
  | system
  | both
  | none
deriving DecidableEq, BEq

/-- State of the platform media encoder (MediaRecorder). -/
inductive RecState
  | inactive
  | recording
  | paused
deriving DecidableEq, BEq

/-- Effect of MediaRecorder.pause: suspends data production while recording. -/
def recPause : RecState → RecState
  | RecState.recording => RecState.paused
  | s => s

/-- Effect of MediaRecorder.resume: resumes data production while paused. -/
def recResume : RecState → RecState
  | RecState.paused => RecState.recording
  | s => s

/-- Mutable session refs and flags of the RecordingProvider: the encoder
handle, the `isRecording`/`isPaused` state, the displayed `duration` and its
ref mirror, and the wall-clock accounting refs (`startTimeRef`,
`pausedDurationRef`, `pauseStartRef`).  `timerActive` models whether the
100 ms duration interval (`timerRef`) is installed. -/
structure Session where
  mediaRecorder : Option RecState
  isRecording : Bool
  isPaused : Bool
  duration : Nat
  durationRef : Nat
  startTime : Option Nat
  pausedDuration : Nat
  pauseStart : Option Nat
  timerActive : Bool
deriving DecidableEq

/-- The session refs as initialised by `startRecording`: encoder started,
timer installed, start timestamp taken, paused accounting cleared. -/
def startedSession (t0 : Nat) : Session :=
  { mediaRecorder := some RecState.recording
    isRecording := true
    isPaused := false
    duration := 0
    durationRef := 0
    startTime := some t0
    pausedDuration := 0
    pauseStart := none
    timerActive := true }

/-- `pauseRecording`: guarded on an existing encoder, `isRecording` and not
`isPaused`; pauses the encoder and records the pause start time. -/
def pauseRecording (now : Nat) (s : Session) : Session :=
  if s.mediaRecorder.isSome = true ∧ s.isRecording = true ∧ s.isPaused = false then
    { s with
      mediaRecorder := s.mediaRecorder.map recPause
      isPaused := true
      pauseStart := some now }
  else s

/-- `resumeRecording`: guarded on an existing encoder, `isRecording` and
`isPaused`; resumes the encoder and folds the elapsed pause interval into
the running paused-duration total. -/
def resumeRecording (now : Nat) (s : Session) : Session :=
  if s.mediaRecorder.isSome = true ∧ s.isRecording = true ∧ s.isPaused = true then
    { s with
      mediaRecorder := s.mediaRecorder.map recResume
      isPaused := false
      pausedDuration :=
        match s.pauseStart with
        | some p => s.pausedDuration + (now - p)
        | none => s.pausedDuration
      pauseStart := none }
  else s

/-- `stopRecording`: only acts when the encoder exists and is not already
inactive; stops the encoder, clears the flags, the timer and the wall-clock
accounting refs.  Otherwise it is a no-op. -/
def stopRecording (s : Session) : Session :=
  match s.mediaRecorder with
  | some r =>
    if r ≠ RecState.inactive then
      { s with
        mediaRecorder := some RecState.inactive
        isRecording := false
        isPaused := false
        timerActive := false
        startTime := none
        pausedDuration := 0
        pauseStart := none }
    else s
  | none => s

/-- One firing of the 100 ms duration interval: when a start timestamp
exists and no pause is in progress, sets the displayed duration (and its
ref) to the floor of elapsed active milliseconds over 1000. -/
def timerTick (now : Nat) (s : Session) : Session :=
  if s.timerActive = true then
    match s.startTime with
    | some st =>
      if s.pauseStart = none then
        let elapsed := (now - st - s.pausedDuration) / 1000
        { s with duration := elapsed, durationRef := elapsed }
      else s
    | none => s
  else s

/-- Observable scheduler events during a recording session: a user pause, a
user resume, or a firing of the duration interval, each stamped with the
wall-clock time at which it runs. -/
inductive REvent
  | pauseEv (t : Nat)
  | resumeEv (t : Nat)
  | tickEv (t : Nat)
deriving DecidableEq

/-- The wall-clock timestamp of an event. -/
def REvent.time : REvent → Nat
  | REvent.pauseEv t => t
  | REvent.resumeEv t => t
  | REvent.tickEv t => t

/-- Dispatch one event to the corresponding session operation. -/
def stepEvent (s : Session) : REvent → Session
  | REvent.pauseEv t => pauseRecording t s
  | REvent.resumeEv t => resumeRecording t s
  | REvent.tickEv t => timerTick t s

/-- Run a sequence of events, in order, through the session. -/
def runSession (s : Session) : List REvent → Session
  | [] => s
  | e :: rest => runSession (stepEvent s e) rest

/-- Specification-side sum of all paused intervals of an event trace,
computed independently of the session machine: a pause opens an interval,
the matching resume closes it, and an interval still open at the stop time
`T` is charged up to `T`. -/
def specPaused : Option Nat → List REvent → Nat → Nat
  | Option.none, [], _ => 0
  | some p, [], T => T - p
  | Option.none, REvent.pauseEv t :: rest, T => specPaused (some t) rest T
  | Option.none, REvent.resumeEv _ :: rest, T => specPaused Option.none rest T
  | Option.none, REvent.tickEv _ :: rest, T => specPaused Option.none rest T
  | some p, REvent.resumeEv t :: rest, T => (t - p) + specPaused Option.none rest T
  | some p, REvent.pauseEv _ :: rest, T => specPaused (some p) rest T
  | some p, REvent.tickEv _ :: rest, T => specPaused (some p) rest T

/-- Monotone timestamps: each event runs no earlier than the given lower
bound, and the bound advances with each event. -/
def wfEvents : Nat → List REvent → Bool
  | _, [] => true
  | lo, e :: rest => Nat.ble lo e.time && wfEvents e.time rest

/-- `toggleMic` of the recording context: flips the microphone half of the
audio-source selection, keeping the system half. -/
def toggleMic : AudioSource → AudioSource
  | AudioSource.mic => AudioSource.none
  | AudioSource.both => AudioSource.system
  | AudioSource.system => AudioSource.both
  | AudioSource.none => AudioSource.mic

/-- Whether the microphone is part of the selection (Home screen). -/
def isMicOn (a : AudioSource) : Bool :=
  a == AudioSource.mic || a == AudioSource.both

/-- Whether system audio is part of the selection (Home screen). -/
def isSystemOn (a : AudioSource) : Bool :=
  a == AudioSource.system || a == AudioSource.both

/-- Editor-local trim window: start/end offsets in seconds into the loaded
asset. -/
structure TrimState where
  startTime : ℚ
  endTime : ℚ
deriving DecidableEq

/-- Start-slider update: the new start is clamped below the end bound with a
half-second separation. -/
def trimStartSlider (v : ℚ) (prev : TrimState) : TrimState :=
  { prev with startTime := min v (prev.endTime - 1/2) }

/-- End-slider update: the new end is clamped above the start bound with a
half-second separation. -/
def trimEndSlider (v : ℚ) (prev : TrimState) : TrimState :=
  { prev with endTime := max v (prev.startTime + 1/2) }

/-- The Set Start button: copies the playhead time into the start bound,
keeping the end bound. -/
def setStartButton (currentTime : ℚ) (t : TrimState) : TrimState :=
  { startTime := currentTime, endTime := t.endTime }

/-- The Set End button: copies the playhead time into the end bound, keeping
the start bound. -/
def setEndButton (currentTime : ℚ) (t : TrimState) : TrimState :=
  { startTime := t.startTime, endTime := currentTime }

/-- The editor's `seek`: the playhead is clamped into the trim window. -/
def seekClamp (t : TrimState) (time : ℚ) : ℚ :=
  max t.startTime (min time t.endTime)

/-- The TrimWindow invariant of the data model: both bounds inside the asset
duration, in order, separated by at least half a second. -/
def trimInvariant (dur : ℚ) (t : TrimState) : Prop :=
  0 ≤ t.startTime ∧ t.startTime < t.endTime ∧ t.endTime ≤ dur ∧
    1/2 ≤ t.endTime - t.startTime

instance (dur : ℚ) (t : TrimState) : Decidable (trimInvariant dur t) := by
  unfold trimInvariant; infer_instance

/-- Webcam overlay size class. -/
inductive WebcamSize
  | small
  | medium
  | large
deriving DecidableEq

/-- Webcam overlay shape. -/
inductive CameraShape
  | circle
  | rounded
  | square
deriving DecidableEq

/-- Webcam overlay corner anchor. -/
inductive WebcamCorner
  | bottomRight
  | bottomLeft
  | topRight
  | topLeft
deriving DecidableEq

/-- Size-class fraction of the minimum canvas dimension
(`sizeMultipliers` in `drawCompositeFrame`). -/
def sizeMultiplier : WebcamSize → ℚ
  | WebcamSize.small => 12/100
  | WebcamSize.medium => 18/100
  | WebcamSize.large => 24/100

/-- Overlay width and height from the shape and the base size: square
aspect for a circle, a 1.33 aspect otherwise. -/
def overlayDims (shape : CameraShape) (baseSize : ℚ) : ℚ × ℚ :=
  match shape with
  | CameraShape.circle => (baseSize, baseSize)
  | _ => (baseSize * (133/100), baseSize)

/-- An axis-aligned rectangle on the canvas. -/
structure OverlayRect where
  x : ℚ
  y : ℚ
  width : ℚ
  height : ℚ

/-- The webcam overlay rectangle computed by `drawCompositeFrame` from the
canvas dimensions, the size class, the shape and the corner anchor, with the
fixed 20-pixel padding. -/
def overlayRect (canvasW canvasH : ℚ) (size : WebcamSize) (shape : CameraShape)
    (corner : WebcamCorner) : OverlayRect :=
  let baseSize := min canvasW canvasH * sizeMultiplier size
  let dims := overlayDims shape baseSize
  let padding : ℚ := 20
  match corner with
  | WebcamCorner.bottomLeft =>
      ⟨padding, canvasH - dims.2 - padding, dims.1, dims.2⟩
  | WebcamCorner.topRight =>
      ⟨canvasW - dims.1 - padding, padding, dims.1, dims.2⟩
  | WebcamCorner.topLeft =>
      ⟨padding, padding, dims.1, dims.2⟩
  | WebcamCorner.bottomRight =>
      ⟨canvasW - dims.1 - padding, canvasH - dims.2 - padding, dims.1, dims.2⟩

/-- Full containment of a rectangle within the canvas bounds. -/
def rectInsideCanvas (canvasW canvasH : ℚ) (r : OverlayRect) : Prop :=
  0 ≤ r.x ∧ 0 ≤ r.y ∧ r.x + r.width ≤ canvasW ∧ r.y + r.height ≤ canvasH

/-- Processing nodes of the audio graph. -/
inductive AudioNode
  | gainNode (value : ℚ)
  | highpassFilter (frequency : ℚ)
  | lowpassFilter (frequency : ℚ)
  | compressorNode (threshold knee ratioValue attack release : ℚ)
deriving DecidableEq

/-- The two branch kinds of the audio graph. -/
inductive BranchKind
  | systemBranch
  | micBranch
deriving DecidableEq

/-- A named branch: an ordered chain of processing nodes feeding the shared
mix destination. -/
structure AudioBranch where
  kind : BranchKind
  chain : List AudioNode
deriving DecidableEq

/-- The audio graph assembled by `startRecording`: a unity-gain system
branch when system audio is selected and tracks were shared, and a
filtered/compressed/gained microphone branch when the microphone is
selected and permission was granted.  The microphone gain is 0.8 in
`both` mode and 1.0 otherwise. -/
def buildAudioGraph (audioSource : AudioSource) (systemTracksPresent micGranted : Bool) :
    List AudioBranch :=
  (if (audioSource = AudioSource.system ∨ audioSource = AudioSource.both) ∧
      systemTracksPresent = true then
    [{ kind := BranchKind.systemBranch, chain := [AudioNode.gainNode 1] }]
  else []) ++
  (if (audioSource = AudioSource.mic ∨ audioSource = AudioSource.both) ∧
      micGranted = true then
    [{ kind := BranchKind.micBranch,
       chain := [AudioNode.highpassFilter 80, AudioNode.lowpassFilter 12000,
                 AudioNode.compressorNode (-24) 30 4 (3/1000) (25/100),
                 AudioNode.gainNode (if audioSource = AudioSource.both then 8/10 else 1)] }]
  else [])

/-- The value of the gain node of a branch, when it has one. -/
def branchGain (b : AudioBranch) : Option ℚ :=
  b.chain.findSome? fun n =>
    match n with
    | AudioNode.gainNode v => some v
    | _ => none

/-- The gain of the branch of the given kind in a graph, when present. -/
def graphGain (k : BranchKind) (g : List AudioBranch) : Option ℚ :=
  match g.find? (fun b => decide (b.kind = k)) with
  | some b => branchGain b
  | none => none

/-- A persisted Recording entity: the binary payload is abstracted by its
byte size; the derived playback URL and thumbnail carry no logic and are
omitted. -/
structure Recording where
  id : String
  duration : ℚ
  timestamp : Nat
  resolution : String
  size : Nat
deriving DecidableEq

/-- The mutable flags of the editor's source video element that the export
touches: the muted flag, the playback rate and the playhead. -/
structure VideoElem where
  muted : Bool
  playbackRate : ℚ
  currentTime : ℚ
deriving DecidableEq

/-- Platform outcomes the export pipeline reacts to: context/stream/seek
availability, source metadata, whether playback and the encoder succeed,
and the byte size of the finalized binary. -/
structure ExportEnv where
  ctxOk : Bool
  metadataOk : Bool
  videoDuration : ℚ
  videoWidth : Nat
  videoHeight : Nat
  canvasCaptureOk : Bool
  seekOk : Bool
  playOk : Bool
  recorderOk : Bool
  blobSize : Nat
  nowMs : Nat
deriving DecidableEq

/-- An export quality preset: its key, its target box and its default
bitrate. -/
structure QualityPreset where
  value : String
  width : Nat
  height : Nat
  defaultBitrate : Nat
deriving DecidableEq

/-- The editor's QUALITY_PRESETS table. -/
def QUALITY_PRESETS : List QualityPreset :=
  [⟨"720p", 1280, 720, 2500000⟩,
   ⟨"1080p", 1920, 1080, 5000000⟩,
   ⟨"2k", 2560, 1440, 8000000⟩,
   ⟨"original", 0, 0, 5000000⟩]

/-- `getSelectedQualityPreset`: look up the chosen preset, defaulting to the
last (original-size) entry. -/
def getSelectedQualityPreset (exportQuality : String) : QualityPreset :=
  (QUALITY_PRESETS.find? (fun q => q.value == exportQuality)).getD
    ⟨"original", 0, 0, 5000000⟩

/-- JavaScript Math.round on a rational: floor of the value plus one half. -/
def ratRound (q : ℚ) : ℤ := ⌊q + 1/2⌋

/-- Target canvas dimensions of the export: source native size for the
original preset, otherwise scaled to fit the preset's box preserving the
source aspect ratio, rounded to whole pixels. -/
def exportCanvasDims (preset : QualityPreset) (vw vh : Nat) : Nat × Nat :=
  if preset.value == "original" || preset.width == 0 then
    ((if vw = 0 then 1920 else vw), (if vh = 0 then 1080 else vh))
  else
    let videoAspect : ℚ := (vw : ℚ) / (vh : ℚ)
    let presetAspect : ℚ := (preset.width : ℚ) / (preset.height : ℚ)
    if presetAspect < videoAspect then
      (preset.width, (ratRound ((preset.width : ℚ) / videoAspect)).toNat)
    else
      ((ratRound ((preset.height : ℚ) * videoAspect)).toNat, preset.height)

/-- Whether an export outcome resolved successfully. -/
def exceptIsOk : Except String Recording → Bool
  | Except.ok _ => true
  | Except.error _ => false

/-- The body of `exportVideo` (the try block): validates context and
metadata, resolves the effective trim interval, seeks, unmutes and re-rates
the source for capture, runs the encoder, rejects a zero-byte binary, and
on success restores the source, constructs the new Recording and prepends
it to the library.  Each early error leaves the library untouched. -/
def exportAttempt (env : ExportEnv) (trim : TrimState) (exportSpeed : ℚ)
    (exportQuality : String) (previousMuted : Bool) (previousRate : ℚ)
    (v : VideoElem) (lib : List Recording) :
    Except String Recording × VideoElem × List Recording :=
  if env.ctxOk = false then
    (Except.error "Canvas context not available", v, lib)
  else if ¬(env.metadataOk = true ∧ 0 < env.videoDuration ∧
      0 < env.videoWidth ∧ 0 < env.videoHeight) then
    (Except.error "Timed out waiting for video metadata", v, lib)
  else
    let preset := getSelectedQualityPreset exportQuality
    let dims := exportCanvasDims preset env.videoWidth env.videoHeight
    let startTime := max 0 (min trim.startTime env.videoDuration)
    let endTime :=
      if trim.endTime ≠ 0 ∧ startTime < trim.endTime then
        min trim.endTime env.videoDuration
      else env.videoDuration
    let totalDuration := endTime - startTime
    if totalDuration ≤ 0 then
      (Except.error "Invalid trim range. Please wait for the video to load, then try again.",
        v, lib)
    else if env.canvasCaptureOk = false then
      (Except.error "Could not capture canvas stream", v, lib)
    else if env.seekOk = false then
      (Except.error "Seek failed", v, lib)
    else
      let v1 : VideoElem := { v with currentTime := startTime }
      let v2 : VideoElem := { v1 with muted := false, playbackRate := exportSpeed }
      if env.playOk = false then
        (Except.error "Video playback failed", v2, lib)
      else if env.recorderOk = false then
        (Except.error "MediaRecorder error", v2, lib)
      else if env.blobSize = 0 then
        (Except.error "Export created an empty file (0B). Please try again.", v2, lib)
      else
        let exportedDuration := totalDuration / exportSpeed
        let v3 : VideoElem := { v2 with
          muted := previousMuted
          currentTime := startTime
          playbackRate := previousRate }
        let newRecording : Recording :=
          { id := "edited-" ++ toString env.nowMs
            duration := exportedDuration
            timestamp := env.nowMs
            resolution := toString dims.1 ++ "x" ++ toString dims.2
            size := env.blobSize }
        (Except.ok newRecording, v3, newRecording :: lib)

/-- `exportVideo`: captures the source's muted flag and playback rate
before the attempt and restores both in the finally block, on every exit
path. -/
def exportVideo (env : ExportEnv) (trim : TrimState) (exportSpeed : ℚ)
    (exportQuality : String) (v : VideoElem) (lib : List Recording) :
    Except String Recording × VideoElem × List Recording :=
  let previousMuted := v.muted
  let previousRate := v.playbackRate
  let r := exportAttempt env trim exportSpeed exportQuality previousMuted previousRate v lib
  (r.1, { r.2.1 with muted := previousMuted, playbackRate := previousRate }, r.2.2)

/-- `getEffectiveDuration`: the trim length when positive, otherwise the
loaded asset's duration. -/
def getEffectiveDuration (trim : TrimState) (videoDuration : ℚ) : ℚ :=
  let trimDuration := trim.endTime - trim.startTime
  if 0 < trimDuration then trimDuration else videoDuration

/-- `estimateFileSize`: zero for a non-positive effective duration,
otherwise the rounded byte count of (video bitrate plus the fixed 128 kbps
audio bitrate) times the sped-up duration over eight. -/
def estimateFileSize (trim : TrimState) (videoDuration exportSpeed : ℚ)
    (exportBitrate : Nat) : ℤ :=
  let duration := getEffectiveDuration trim videoDuration
  if duration ≤ 0 then 0
  else
    let exportedDuration := duration / exportSpeed
    let totalBitsPerSecond : ℚ := (exportBitrate : ℚ) + 128000
    let estimatedBits := totalBitsPerSecond * exportedDuration
    ratRound (estimatedBits / 8)

/-- Structural facts holding throughout an in-flight recording session:
recording flag set, encoder and timer installed, start timestamp fixed, and
the paused flag mirroring the pause-start ref. -/
def goodSession (t0 : Nat) (s : Session) : Prop :=
  s.isRecording = true ∧ s.mediaRecorder.isSome = true ∧ s.timerActive = true ∧
    s.startTime = some t0 ∧ s.isPaused = s.pauseStart.isSome

/-- Pausing preserves the session invariant. -/
lemma pauseRecording_good (t0 now : Nat) (s : Session) (h : goodSession t0 s) :
    goodSession t0 (pauseRecording now s) := by
  obtain ⟨h1, h2, h3, h4, h5⟩ := h
  unfold pauseRecording
  by_cases hc : s.mediaRecorder.isSome = true ∧ s.isRecording = true ∧ s.isPaused = false
  · rw [if_pos hc]
    refine ⟨h1, ?_, h3, h4, rfl⟩
    show (s.mediaRecorder.map recPause).isSome = true
    cases hmr : s.mediaRecorder with
    | none => rw [hmr] at h2; simp at h2
    | some r => rfl
  · rw [if_neg hc]
    exact ⟨h1, h2, h3, h4, h5⟩

/-- Resuming preserves the session invariant. -/
lemma resumeRecording_good (t0 now : Nat) (s : Session) (h : goodSession t0 s) :
    goodSession t0 (resumeRecording now s) := by
  obtain ⟨h1, h2, h3, h4, h5⟩ := h
  unfold resumeRecording
  by_cases hc : s.mediaRecorder.isSome = true ∧ s.isRecording = true ∧ s.isPaused = true
  · rw [if_pos hc]
    refine ⟨h1, ?_, h3, h4, rfl⟩
    show (s.mediaRecorder.map recResume).isSome = true
    cases hmr : s.mediaRecorder with
    | none => rw [hmr] at h2; simp at h2
    | some r => rfl
  · rw [if_neg hc]
    exact ⟨h1, h2, h3, h4, h5⟩

/-- A timer tick never touches the pause-start ref. -/
lemma timerTick_pauseStart (now : Nat) (s : Session) :
    (timerTick now s).pauseStart = s.pauseStart := by
  unfold timerTick
  split
  · split
    · split <;> rfl
    · rfl
  · rfl

/-- A timer tick never touches the paused-duration total. -/
lemma timerTick_pausedDuration (now : Nat) (s : Session) :
    (timerTick now s).pausedDuration = s.pausedDuration := by
  unfold timerTick
  split
  · split
    · split <;> rfl
    · rfl
  · rfl

/-- A timer tick never touches the recording flag. -/
lemma timerTick_isRecording (now : Nat) (s : Session) :
    (timerTick now s).isRecording = s.isRecording := by
  unfold timerTick
  split
  · split
    · split <;> rfl
    · rfl
  · rfl

/-- A timer tick never touches the encoder handle. -/
lemma timerTick_mediaRecorder (now : Nat) (s : Session) :
    (timerTick now s).mediaRecorder = s.mediaRecorder := by
  unfold timerTick
  split
  · split
    · split <;> rfl
    · rfl
  · rfl

/-- A timer tick never touches the timer flag. -/
lemma timerTick_timerActive (now : Nat) (s : Session) :
    (timerTick now s).timerActive = s.timerActive := by
  unfold timerTick
  split
  · split
    · split <;> rfl
    · rfl
  · rfl

/-- A timer tick never touches the start timestamp. -/
lemma timerTick_startTime (now : Nat) (s : Session) :
    (timerTick now s).startTime = s.startTime := by
  unfold timerTick
  split
  · split
    · split <;> rfl
    · rfl
  · rfl

/-- A timer tick never touches the paused flag. -/
lemma timerTick_isPaused (now : Nat) (s : Session) :
    (timerTick now s).isPaused = s.isPaused := by
  unfold timerTick
  split
  · split
    · split <;> rfl
    · rfl
  · rfl

/-- A timer tick preserves the session invariant. -/
lemma timerTick_good (t0 now : Nat) (s : Session) (h : goodSession t0 s) :
    goodSession t0 (timerTick now s) := by
  obtain ⟨h1, h2, h3, h4, h5⟩ := h
  exact ⟨by rw [timerTick_isRecording]; exact h1,
         by rw [timerTick_mediaRecorder]; exact h2,
         by rw [timerTick_timerActive]; exact h3,
         by rw [timerTick_startTime]; exact h4,
         by rw [timerTick_isPaused, timerTick_pauseStart]; exact h5⟩

/-- Every event step preserves the session invariant. -/
lemma stepEvent_good (t0 : Nat) (s : Session) (e : REvent) (h : goodSession t0 s) :
    goodSession t0 (stepEvent s e) := by
  cases e with
  | pauseEv t => exact pauseRecording_good t0 t s h
  | resumeEv t => exact resumeRecording_good t0 t s h
  | tickEv t => exact timerTick_good t0 t s h

/-- Running any event trace preserves the session invariant. -/
lemma runSession_good (t0 : Nat) (es : List REvent) :
    ∀ s : Session, goodSession t0 s → goodSession t0 (runSession s es) := by
  induction es with
  | nil => intro s h; exact h
  | cons e rest ih => intro s h; exact ih _ (stepEvent_good t0 s e h)

/-- Appending one event runs it after the rest of the trace. -/
lemma runSession_append (s : Session) (es : List REvent) (e : REvent) :
    runSession s (es ++ [e]) = stepEvent (runSession s es) e := by
  induction es generalizing s with
  | nil => rfl
  | cons f rest ih => exact ih (stepEvent s f)

/-- A trailing timer tick contributes nothing to the paused-interval sum. -/
lemma specPaused_append_tick (es : List REvent) (t T : Nat) :
    ∀ ps, specPaused ps (es ++ [REvent.tickEv t]) T = specPaused ps es T := by
  induction es with
  | nil => intro ps; cases ps <;> rfl
  | cons e rest ih =>
    intro ps
    cases ps <;> cases e <;> simp [specPaused, ih]

/-- In a monotone trace every event runs at or after the lower bound. -/
lemma wfEvents_le (es : List REvent) :
    ∀ lo, wfEvents lo es = true → ∀ e ∈ es, lo ≤ e.time := by
  induction es with
  | nil => intro lo _ e he; cases he
  | cons f rest ih =>
    intro lo h e he
    simp only [wfEvents, Bool.and_eq_true, Nat.ble_eq] at h
    rcases List.mem_cons.mp he with rfl | hmem
    · exact h.1
    · exact le_trans h.1 (ih f.time h.2 e hmem)

/-- An unpaused timer tick writes the floored active seconds into the
duration ref. -/
lemma timerTick_durationRef (now t0 : Nat) (s : Session) (h3 : s.timerActive = true)
    (h4 : s.startTime = some t0) (hps : s.pauseStart = none) :
    (timerTick now s).durationRef = (now - t0 - s.pausedDuration) / 1000 := by
  simp [timerTick, h3, h4, hps]

/-- The machine's paused-duration ref agrees with the independently computed
sum of paused intervals, for every trace that ends unpaused. -/
lemma runSession_pausedDuration (t0 T : Nat) (es : List REvent) :
    ∀ s : Session, goodSession t0 s → (runSession s es).pauseStart = none →
      (runSession s es).pausedDuration = s.pausedDuration + specPaused s.pauseStart es T := by
  induction es with
  | nil =>
    intro s _ hend
    rw [show runSession s [] = s from rfl] at hend ⊢
    rw [hend]
    simp [specPaused]
  | cons e rest ih =>
    intro s hg hend
    obtain ⟨h1, h2, h3, h4, h5⟩ := hg
    have hg0 : goodSession t0 s := ⟨h1, h2, h3, h4, h5⟩
    cases e with
    | pauseEv t =>
      cases hps : s.pauseStart with
      | none =>
        have hcond : s.mediaRecorder.isSome = true ∧ s.isRecording = true ∧
            s.isPaused = false := ⟨h2, h1, by simp [h5, hps]⟩
        have hstep : stepEvent s (REvent.pauseEv t) =
            { s with mediaRecorder := s.mediaRecorder.map recPause,
                     isPaused := true, pauseStart := some t } := by
          simp only [stepEvent, pauseRecording, if_pos hcond]
        have hg' := stepEvent_good t0 s (REvent.pauseEv t) hg0
        rw [show runSession s (REvent.pauseEv t :: rest) =
            runSession (stepEvent s (REvent.pauseEv t)) rest from rfl] at hend ⊢
        rw [hstep] at hend hg' ⊢
        rw [ih _ hg' hend]
        simp [specPaused]
      | some p =>
        have hcond : ¬(s.mediaRecorder.isSome = true ∧ s.isRecording = true ∧
            s.isPaused = false) := by
          rintro ⟨-, -, hf⟩
          rw [h5, hps] at hf
          simp at hf
        have hstep : stepEvent s (REvent.pauseEv t) = s := by
          simp only [stepEvent, pauseRecording, if_neg hcond]
        rw [show runSession s (REvent.pauseEv t :: rest) =
            runSession (stepEvent s (REvent.pauseEv t)) rest from rfl] at hend ⊢
        rw [hstep] at hend ⊢
        rw [ih _ hg0 hend, hps]
        simp [specPaused]
    | resumeEv t =>
      cases hps : s.pauseStart with
      | some p =>
        have hcond : s.mediaRecorder.isSome = true ∧ s.isRecording = true ∧
            s.isPaused = true := ⟨h2, h1, by simp [h5, hps]⟩
        have hstep : stepEvent s (REvent.resumeEv t) =
            { s with mediaRecorder := s.mediaRecorder.map recResume,
                     isPaused := false,
                     pausedDuration := s.pausedDuration + (t - p),
                     pauseStart := none } := by
          simp only [stepEvent, resumeRecording, if_pos hcond, hps]
        have hg' := stepEvent_good t0 s (REvent.resumeEv t) hg0
        rw [show runSession s (REvent.resumeEv t :: rest) =
            runSession (stepEvent s (REvent.resumeEv t)) rest from rfl] at hend ⊢
        rw [hstep] at hend hg' ⊢
        rw [ih _ hg' hend]
        simp [specPaused]
        omega
      | none =>
        have hcond : ¬(s.mediaRecorder.isSome = true ∧ s.isRecording = true ∧
            s.isPaused = true) := by
          rintro ⟨-, -, hf⟩
          rw [h5, hps] at hf
          simp at hf
        have hstep : stepEvent s (REvent.resumeEv t) = s := by
          simp only [stepEvent, resumeRecording, if_neg hcond]
        rw [show runSession s (REvent.resumeEv t :: rest) =
            runSession (stepEvent s (REvent.resumeEv t)) rest from rfl] at hend ⊢
        rw [hstep] at hend ⊢
        rw [ih _ hg0 hend, hps]
        simp [specPaused]
    | tickEv t =>
      have hg' := stepEvent_good t0 s (REvent.tickEv t) hg0
      rw [show runSession s (REvent.tickEv t :: rest) =
          runSession (stepEvent s (REvent.tickEv t)) rest from rfl] at hend ⊢
      rw [ih _ hg' hend]
      rw [show stepEvent s (REvent.tickEv t) = timerTick t s from rfl,
        timerTick_pausedDuration, timerTick_pauseStart]
      cases hps : s.pauseStart <;> simp [specPaused]

/-- C1 (amended): for every monotone sequence of pause/resume events during
a recording started at `t0` and ending with a timer tick at `tl`, with the
session stopped unpaused at time `T` at most one 100 ms scheduler tick after
that last tick, the reported duration equals the floor of the active seconds
at the last tick: time spent paused (the independently computed
`specPaused` sum) is strictly excluded, and the reported value in
milliseconds is below the wall-clock active time by less than one second of
display granularity plus one scheduler tick.  The claim's bound of a single
scheduler tick does not hold because the timer floors to whole seconds; see
the counterexample. -/
theorem recording_duration_accounting (t0 tl T : Nat) (es : List REvent)
    (hwf : wfEvents t0 (es ++ [REvent.tickEv tl]) = true)
    (htl : tl ≤ T) (hT : T ≤ tl + 100)
    (hend : (runSession (startedSession t0) (es ++ [REvent.tickEv tl])).pauseStart = none) :
    (runSession (startedSession t0) (es ++ [REvent.tickEv tl])).durationRef * 1000
        ≤ (T - t0) - specPaused Option.none (es ++ [REvent.tickEv tl]) T
    ∧ (T - t0) - specPaused Option.none (es ++ [REvent.tickEv tl]) T
        < (runSession (startedSession t0) (es ++ [REvent.tickEv tl])).durationRef * 1000 + 1000 + 100 := by
  have hstart : goodSession t0 (startedSession t0) := ⟨rfl, rfl, rfl, rfl, rfl⟩
  have hmid : goodSession t0 (runSession (startedSession t0) es) :=
    runSession_good t0 es _ hstart
  obtain ⟨hm1, hm2, hm3, hm4, hm5⟩ := hmid
  have happ : runSession (startedSession t0) (es ++ [REvent.tickEv tl]) =
      timerTick tl (runSession (startedSession t0) es) := runSession_append _ es _
  have hmidps : (runSession (startedSession t0) es).pauseStart = none := by
    rw [happ, timerTick_pauseStart] at hend
    exact hend
  have hpd : (runSession (startedSession t0) es).pausedDuration =
      specPaused Option.none es T := by
    have h := runSession_pausedDuration t0 T es (startedSession t0) hstart hmidps
    simpa [startedSession] using h
  have hdr : (runSession (startedSession t0) (es ++ [REvent.tickEv tl])).durationRef =
      (tl - t0 - specPaused Option.none es T) / 1000 := by
    rw [happ, timerTick_durationRef tl t0 _ hm3 hm4 hmidps, hpd]
  have hsp : specPaused Option.none (es ++ [REvent.tickEv tl]) T =
      specPaused Option.none es T := specPaused_append_tick es tl T Option.none
  have ht0 : t0 ≤ tl :=
    wfEvents_le _ t0 hwf (REvent.tickEv tl) (by simp)
  rw [hdr, hsp]
  omega

/-- C1 (counterexample): a session started at 0, paused at 100 ms, resumed
at 200 ms, last ticked at 300 ms and stopped at 900 ms has 800 ms of active
wall-clock time but reports 0 seconds: the reported duration is not within
one 100 ms scheduler tick of the active wall-clock time, because the timer
floors to whole seconds. -/
theorem recording_duration_counterexample :
    ¬ ((900 - 0 - specPaused Option.none
          [REvent.pauseEv 100, REvent.resumeEv 200, REvent.tickEv 300] 900)
        ≤ (runSession (startedSession 0)
            [REvent.pauseEv 100, REvent.resumeEv 200, REvent.tickEv 300]).durationRef * 1000
          + 100) := by decide

/-- C1 (witness): the amended accounting theorem applied to the concrete
trace pause at 100 ms, resume at 200 ms, tick at 300 ms, stop at 350 ms. -/
theorem recording_duration_witness :
    wfEvents 0 ([REvent.pauseEv 100, REvent.resumeEv 200] ++ [REvent.tickEv 300]) = true
    ∧ 300 ≤ 350 ∧ 350 ≤ 300 + 100
    ∧ (runSession (startedSession 0)
        ([REvent.pauseEv 100, REvent.resumeEv 200] ++ [REvent.tickEv 300])).pauseStart = none
    ∧ ((runSession (startedSession 0)
          ([REvent.pauseEv 100, REvent.resumeEv 200] ++ [REvent.tickEv 300])).durationRef * 1000
        ≤ (350 - 0) - specPaused Option.none
            ([REvent.pauseEv 100, REvent.resumeEv 200] ++ [REvent.tickEv 300]) 350
      ∧ (350 - 0) - specPaused Option.none
            ([REvent.pauseEv 100, REvent.resumeEv 200] ++ [REvent.tickEv 300]) 350
        < (runSession (startedSession 0)
            ([REvent.pauseEv 100, REvent.resumeEv 200] ++ [REvent.tickEv 300])).durationRef * 1000
          + 1000 + 100) :=
  ⟨by decide, by decide, by decide, by decide,
    recording_duration_accounting 0 300 350 [REvent.pauseEv 100, REvent.resumeEv 200]
      (by decide) (by decide) (by decide) (by decide)⟩

/-- C2: stopping is idempotent.  When the session is already Idle (no
encoder, or an inactive encoder) `stopRecording` changes nothing, and a
second consecutive stop is always a no-op; the operation is total, so no
error is raised. -/
theorem stop_idempotent (s : Session) :
    ((s.mediaRecorder = none ∨ s.mediaRecorder = some RecState.inactive) →
      stopRecording s = s)
    ∧ stopRecording (stopRecording s) = stopRecording s := by
  have key : ∀ u : Session,
      (u.mediaRecorder = none ∨ u.mediaRecorder = some RecState.inactive) →
      stopRecording u = u := by
    intro u h
    rcases h with h | h <;> simp [stopRecording, h]
  refine ⟨key s, key _ ?_⟩
  cases hmr : s.mediaRecorder with
  | none => left; simp [stopRecording, hmr]
  | some r =>
    right
    by_cases hr : r = RecState.inactive <;> simp [stopRecording, hmr, hr]

/-- C2 (witness): stopping a concrete Idle session changes nothing. -/
theorem stop_idempotent_witness :
    stopRecording ⟨none, false, false, 0, 0, none, 0, none, false⟩ =
      (⟨none, false, false, 0, 0, none, 0, none, false⟩ : Session) :=
  (stop_idempotent _).1 (Or.inl rfl)

/-- C9: pause is effective only with a live encoder in the recording
non-paused state, and resume only in the paused state; in every other state
both calls leave the session completely unchanged. -/
theorem pause_resume_only_valid (s : Session) (now : Nat) :
    (¬(s.mediaRecorder.isSome = true ∧ s.isRecording = true ∧ s.isPaused = false) →
      pauseRecording now s = s)
    ∧ (¬(s.mediaRecorder.isSome = true ∧ s.isRecording = true ∧ s.isPaused = true) →
      resumeRecording now s = s) :=
  ⟨fun h => by unfold pauseRecording; rw [if_neg h],
   fun h => by unfold resumeRecording; rw [if_neg h]⟩

/-- C9 (witness): pausing and resuming a concrete Idle session are both
no-ops. -/
theorem pause_resume_only_valid_witness :
    pauseRecording 5 ⟨none, false, false, 0, 0, none, 0, none, false⟩ =
      (⟨none, false, false, 0, 0, none, 0, none, false⟩ : Session)
    ∧ resumeRecording 5 ⟨none, false, false, 0, 0, none, 0, none, false⟩ =
      (⟨none, false, false, 0, 0, none, 0, none, false⟩ : Session) :=
  ⟨(pause_resume_only_valid _ 5).1 (by decide),
   (pause_resume_only_valid _ 5).2 (by decide)⟩

/-- C10: `toggleMic` flips whether the microphone is selected, preserves
whether system audio is selected, is an involution, and realises the
mapping mic to none, none to mic, both to system, system to both. -/
theorem toggleMic_involution (a : AudioSource) :
    isMicOn (toggleMic a) = !isMicOn a
    ∧ isSystemOn (toggleMic a) = isSystemOn a
    ∧ toggleMic (toggleMic a) = a
    ∧ toggleMic AudioSource.mic = AudioSource.none
    ∧ toggleMic AudioSource.none = AudioSource.mic
    ∧ toggleMic AudioSource.both = AudioSource.system
    ∧ toggleMic AudioSource.system = AudioSource.both := by
  cases a <;> decide

/-- C3 (counterexample): with an asset of 10 seconds and a valid trim
window from 0 to 10, seeking the playhead to 10 (which the seek clamp
allows) and pressing Set Start yields a trim window with start equal to
end: the Set Start button copies the playhead without clamping against the
opposite bound, violating the invariant. -/
theorem trim_set_button_counterexample :
    trimInvariant 10 ⟨0, 10⟩ ∧
      ¬ trimInvariant 10 (setStartButton (seekClamp ⟨0, 10⟩ 10) ⟨0, 10⟩) := by
  constructor
  · exact ⟨by norm_num, by norm_num, by norm_num, by norm_num⟩
  · simp [trimInvariant, setStartButton, seekClamp]

/-- C3 (amended): the two slider mutations preserve the trim invariant for
every slider value inside the asset duration, including values that would
move one bound past the other, because each clamps against the opposite
bound with the half-second separation.  The Set Start and Set End buttons
do not clamp and can violate the invariant (see the counterexample). -/
theorem trim_slider_invariant (dur v : ℚ) (t : TrimState)
    (hinv : trimInvariant dur t) (hv0 : 0 ≤ v) (hvd : v ≤ dur) :
    trimInvariant dur (trimStartSlider v t) ∧ trimInvariant dur (trimEndSlider v t) := by
  obtain ⟨h1, h2, h3, h4⟩ := hinv
  constructor
  · refine ⟨?_, ?_, ?_, ?_⟩
    · show (0:ℚ) ≤ min v (t.endTime - 1/2)
      exact le_min hv0 (by linarith)
    · show min v (t.endTime - 1/2) < t.endTime
      have := min_le_right v (t.endTime - 1/2)
      linarith
    · exact h3
    · show 1/2 ≤ t.endTime - min v (t.endTime - 1/2)
      have := min_le_right v (t.endTime - 1/2)
      linarith
  · refine ⟨?_, ?_, ?_, ?_⟩
    · exact h1
    · show t.startTime < max v (t.startTime + 1/2)
      have := le_max_right v (t.startTime + 1/2)
      linarith
    · show max v (t.startTime + 1/2) ≤ dur
      exact max_le hvd (by linarith)
    · show 1/2 ≤ max v (t.startTime + 1/2) - t.startTime
      have := le_max_right v (t.startTime + 1/2)
      linarith

/-- C3 (witness): the slider preservation theorem applied to the window
from 0 to 10 with slider value 3 on a 10-second asset. -/
theorem trim_slider_invariant_witness :
    trimInvariant 10 ⟨0, 10⟩ ∧ (0:ℚ) ≤ 3 ∧ (3:ℚ) ≤ 10
    ∧ (trimInvariant 10 (trimStartSlider 3 ⟨0, 10⟩)
        ∧ trimInvariant 10 (trimEndSlider 3 ⟨0, 10⟩)) :=
  ⟨⟨by norm_num, by norm_num, by norm_num, by norm_num⟩, by norm_num, by norm_num,
    trim_slider_invariant 10 3 ⟨0, 10⟩
      ⟨by norm_num, by norm_num, by norm_num, by norm_num⟩ (by norm_num) (by norm_num)⟩

/-- The overlay dimensions, padded by 20 pixels on each side, fit inside
any canvas at least 320 pixels wide and 240 pixels tall. -/
lemma overlayDims_bound (w h : ℚ) (size : WebcamSize) (shape : CameraShape)
    (hw : 320 ≤ w) (hh : 240 ≤ h) :
    (overlayDims shape (min w h * sizeMultiplier size)).1 + 40 ≤ w ∧
    (overlayDims shape (min w h * sizeMultiplier size)).2 + 40 ≤ h := by
  have hmw : min w h ≤ w := min_le_left w h
  have hmh : min w h ≤ h := min_le_right w h
  have hm0 : (0:ℚ) ≤ min w h := le_min (by linarith) (by linarith)
  cases size <;> cases shape <;>
    simp [overlayDims, sizeMultiplier] <;>
    constructor <;> linarith

/-- C4: the webcam overlay rectangle computed by the compositor is fully
contained in the canvas for every size class, shape and corner anchor, for
all canvas dimensions from 320 by 240 up to 3840 by 2160. -/
theorem webcam_overlay_inside_canvas (w h : ℚ) (size : WebcamSize) (shape : CameraShape)
    (corner : WebcamCorner) (hw1 : 320 ≤ w) (hw2 : w ≤ 3840)
    (hh1 : 240 ≤ h) (hh2 : h ≤ 2160) :
    rectInsideCanvas w h (overlayRect w h size shape corner) := by
  obtain ⟨hbw, hbh⟩ := overlayDims_bound w h size shape hw1 hh1
  cases corner <;>
    exact ⟨by simp [overlayRect, rectInsideCanvas] <;> linarith,
           by simp [overlayRect, rectInsideCanvas] <;> linarith,
           by simp [overlayRect, rectInsideCanvas] <;> linarith,
           by simp [overlayRect, rectInsideCanvas] <;> linarith⟩

/-- C4 (witness): containment at a 1920 by 1080 canvas with the large
rounded overlay anchored bottom-right. -/
theorem webcam_overlay_inside_canvas_witness :
    (320:ℚ) ≤ 1920 ∧ (1920:ℚ) ≤ 3840 ∧ (240:ℚ) ≤ 1080 ∧ (1080:ℚ) ≤ 2160
    ∧ rectInsideCanvas 1920 1080
        (overlayRect 1920 1080 WebcamSize.large CameraShape.rounded WebcamCorner.bottomRight) :=
  ⟨by norm_num, by norm_num, by norm_num, by norm_num,
    webcam_overlay_inside_canvas 1920 1080 WebcamSize.large CameraShape.rounded
      WebcamCorner.bottomRight (by norm_num) (by norm_num) (by norm_num) (by norm_num)⟩

/-- C5: whenever the encoder finalizes with a zero-byte binary, the export
never resolves successfully and the recording library is left untouched:
every exit path with a zero blob size is an error path. -/
theorem export_zero_byte_rejected (env : ExportEnv) (trim : TrimState) (exportSpeed : ℚ)
    (exportQuality : String) (v : VideoElem) (lib : List Recording)
    (hzero : env.blobSize = 0) :
    exceptIsOk (exportVideo env trim exportSpeed exportQuality v lib).1 = false
    ∧ (exportVideo env trim exportSpeed exportQuality v lib).2.2 = lib := by
  simp only [exportVideo, exportAttempt]
  split_ifs <;> simp_all [exceptIsOk]

/-- C5 (witness): a concrete export in which every platform step succeeds
but the finalized binary is empty is rejected and adds nothing to an empty
library. -/
theorem export_zero_byte_rejected_witness :
    (⟨true, true, 10, 1920, 1080, true, true, true, true, 0, 5⟩ : ExportEnv).blobSize = 0
    ∧ (exceptIsOk (exportVideo ⟨true, true, 10, 1920, 1080, true, true, true, true, 0, 5⟩
          ⟨0, 10⟩ 1 "original" ⟨false, 1, 0⟩ []).1 = false
      ∧ (exportVideo ⟨true, true, 10, 1920, 1080, true, true, true, true, 0, 5⟩
          ⟨0, 10⟩ 1 "original" ⟨false, 1, 0⟩ []).2.2 = ([] : List Recording)) :=
  ⟨rfl, export_zero_byte_rejected _ _ _ _ _ _ rfl⟩

/-- C6: on every exit path of the export, success or any error, the source
video element's muted flag and playback rate are restored to the values
they held before the export began. -/
theorem export_restores_source_state (env : ExportEnv) (trim : TrimState) (exportSpeed : ℚ)
    (exportQuality : String) (v : VideoElem) (lib : List Recording) :
    (exportVideo env trim exportSpeed exportQuality v lib).2.1.muted = v.muted
    ∧ (exportVideo env trim exportSpeed exportQuality v lib).2.1.playbackRate = v.playbackRate :=
  ⟨rfl, rfl⟩

/-- C7 (counterexample): with a one-second trim, unit speed and a video
bitrate of 4 bits per second, the formula of the claim gives the
non-integral 16000.5 bytes while the code reports the rounded 16001: the
estimate is the rounded value, not the exact quotient. -/
theorem estimateFileSize_counterexample :
    ¬ ((estimateFileSize ⟨0, 1⟩ 0 1 4 : ℚ) = ((4 : ℚ) + 128000) * (1 / 1) / 8) := by
  norm_num [estimateFileSize, getEffectiveDuration, ratRound]

/-- C7 (amended): for a positive effective duration the estimated file size
is (video bitrate plus the fixed 128 kbps audio bitrate) times (duration
over speed) over eight, rounded to the nearest byte; it is zero when the
effective duration is not positive. -/
theorem estimateFileSize_rounded (trim : TrimState) (videoDuration exportSpeed : ℚ)
    (exportBitrate : Nat) :
    (0 < getEffectiveDuration trim videoDuration →
      estimateFileSize trim videoDuration exportSpeed exportBitrate =
        ratRound (((exportBitrate : ℚ) + 128000) *
          (getEffectiveDuration trim videoDuration / exportSpeed) / 8))
    ∧ (getEffectiveDuration trim videoDuration ≤ 0 →
      estimateFileSize trim videoDuration exportSpeed exportBitrate = 0) := by
  simp only [estimateFileSize]
  constructor
  · intro h
    rw [if_neg (not_le.mpr h)]
  · intro h
    rw [if_pos h]

/-- C7 (witness): the rounded-estimate theorem applied to a two-second trim
at unit speed and one megabit per second. -/
theorem estimateFileSize_rounded_witness :
    0 < getEffectiveDuration ⟨0, 2⟩ 0
    ∧ estimateFileSize ⟨0, 2⟩ 0 1 1000000 =
        ratRound ((((1000000 : Nat) : ℚ) + 128000) *
          (getEffectiveDuration ⟨0, 2⟩ 0 / 1) / 8) :=
  ⟨by norm_num [getEffectiveDuration],
    (estimateFileSize_rounded ⟨0, 2⟩ 0 1 1000000).1 (by norm_num [getEffectiveDuration])⟩

/-- C8: in the audio graph built by the capture session, the microphone
branch's gain is 0.8 exactly when the selected source is both, 1.0 exactly
when it is the microphone alone, and the system branch's gain is 1.0
whenever that branch exists. -/
theorem audio_gain_levels (a : AudioSource) (sys mic : Bool) :
    (graphGain BranchKind.micBranch (buildAudioGraph a sys mic) = some (8/10)
        ↔ mic = true ∧ a = AudioSource.both)
    ∧ (graphGain BranchKind.micBranch (buildAudioGraph a sys mic) = some 1
        ↔ mic = true ∧ a = AudioSource.mic)
    ∧ (graphGain BranchKind.systemBranch (buildAudioGraph a sys mic) = none
        ∨ graphGain BranchKind.systemBranch (buildAudioGraph a sys mic) = some 1) := by
  cases a <;> cases sys <;> cases mic <;>
    simp [buildAudioGraph, graphGain, branchGain, List.find?, List.findSome?] <;> norm_num
